import Mathlib

set_option maxRecDepth 40000

/-!
Shallow embedding of `src/chunk.py` (RIFF/WAVE chunk decoder).

Modelling conventions:

* Python `bytes` values are `List Nat` (each element a byte value 0..255 in
  every buffer actually supplied).
* Python `str` values are represented by their UTF-8 encodings as `List Nat`.
  Python's strict `bytes.decode("utf-8")` succeeds exactly on byte lists
  accepted by `utf8Valid` below and is injective on them (no overlong forms,
  no surrogates), so equality of Python strings corresponds to equality of
  these representations, and the empty string is `[]`.
* Python `int` is `Int`; positions and sizes are `Int` because the code
  stores the sentinel `-1` in `chunk_size` and threads it back into slicing.
* A raised `UnicodeDecodeError` (the only exception reachable from the
  decoders) is modelled by `Except Unit`; `Except.error ()` is a raise.
* Methods mutating `self` become functions from the record to the record;
  `self.valid` inside `get_bytes` is passed and returned explicitly.
-/

/-- Python slice index normalization: negative indices count from the end
(clamped at 0), non-negative indices are clamped at the length. -/
def pyIdx (len : Nat) (i : Int) : Nat :=
  if i < 0 then ((len : Int) + i).toNat else min i.toNat len

/-- Python slice `b[s:e]` for integer (possibly negative) `s`, `e`. -/
def pySlice (b : List Nat) (s e : Int) : List Nat :=
  (b.take (pyIdx b.length e)).drop (pyIdx b.length s)

/-- Little-endian value of a byte list, as `int.from_bytes(_, "little")`. -/
def leVal (bs : List Nat) : Nat :=
  bs.foldr (fun byte acc => byte + 256 * acc) 0

/-- Big-endian value of a byte list, as `int.from_bytes(_, "big")`. -/
def beVal (bs : List Nat) : Nat :=
  bs.foldl (fun acc byte => 256 * acc + byte) 0

/-- UTF-8 continuation byte: `0x80 ≤ c ≤ 0xBF`. -/
def utf8Cont (c : Nat) : Bool :=
  0x80 ≤ c && c ≤ 0xBF

/-- Validity of a byte list under Python's strict UTF-8 decoder
(RFC 3629: no overlong encodings, no surrogates, max U+10FFFF). -/
def utf8Valid : List Nat → Bool
  | [] => true
  | b :: rest =>
    if b ≤ 0x7F then utf8Valid rest
    else if 0xC2 ≤ b && b ≤ 0xDF then
      match rest with
      | c1 :: r => utf8Cont c1 && utf8Valid r
      | [] => false
    else if b = 0xE0 then
      match rest with
      | c1 :: c2 :: r => (0xA0 ≤ c1 && c1 ≤ 0xBF) && utf8Cont c2 && utf8Valid r
      | _ => false
    else if (0xE1 ≤ b && b ≤ 0xEC) || b = 0xEE || b = 0xEF then
      match rest with
      | c1 :: c2 :: r => utf8Cont c1 && utf8Cont c2 && utf8Valid r
      | _ => false
    else if b = 0xED then
      match rest with
      | c1 :: c2 :: r => (0x80 ≤ c1 && c1 ≤ 0x9F) && utf8Cont c2 && utf8Valid r
      | _ => false
    else if b = 0xF0 then
      match rest with
      | c1 :: c2 :: c3 :: r =>
        (0x90 ≤ c1 && c1 ≤ 0xBF) && utf8Cont c2 && utf8Cont c3 && utf8Valid r
      | _ => false
    else if 0xF1 ≤ b && b ≤ 0xF3 then
      match rest with
      | c1 :: c2 :: c3 :: r => utf8Cont c1 && utf8Cont c2 && utf8Cont c3 && utf8Valid r
      | _ => false
    else if b = 0xF4 then
      match rest with
      | c1 :: c2 :: c3 :: r =>
        (0x80 ≤ c1 && c1 ≤ 0x8F) && utf8Cont c2 && utf8Cont c3 && utf8Valid r
      | _ => false
    else false

/-- Python `bytes.decode("utf-8")`: the (represented) string on success,
`Except.error ()` modelling a raised `UnicodeDecodeError` otherwise. -/
def utf8Decode (b : List Nat) : Except Unit (List Nat) :=
  if utf8Valid b then .ok b else .error ()

/-- The `byteorder` argument of `int.from_bytes`. -/
inductive ByteOrder where
  | little
  | big
deriving DecidableEq, Repr

/-- `ChunkType` enumeration from `chunk.py`. -/
inductive ChunkType where
  | UNKNOWN
  | RIFF
  | STANDARD_FMT
  | NON_STANDARD_FMT
  | EXTENSIBLE_FMT
  | DATA
  | BEXT
deriving DecidableEq, Repr

/-- UTF-8 bytes of the literal `"RIFF"`. -/
def strRIFF : List Nat := [82, 73, 70, 70]

/-- UTF-8 bytes of the literal `"fmt "`. -/
def strFmt : List Nat := [102, 109, 116, 32]

/-- UTF-8 bytes of the literal `"data"`. -/
def strData : List Nat := [100, 97, 116, 97]

/-- UTF-8 bytes of the literal `"bext"`. -/
def strBext : List Nat := [98, 101, 120, 116]

/-- UTF-8 bytes of the literal `"WAVE"`. -/
def strWAVE : List Nat := [87, 65, 86, 69]

/-- UTF-8 bytes of the literal `"fact"`. -/
def strFact : List Nat := [102, 97, 99, 116]

/-- Fields of `BaseChunk`. `chunk_type` is an `Option` because
`get_chunk_type` can fall off the end of its `elif` chain and return
Python `None` (modelled as `none`). -/
structure BaseChunk where
  chunk_name : List Nat
  chunk_type : Option ChunkType
  chunk_size : Int
  valid : Bool
deriving DecidableEq, Repr

/-- `BaseChunk.__init__`. -/
def BaseChunk.new : BaseChunk :=
  { chunk_name := [], chunk_type := some ChunkType.UNKNOWN, chunk_size := 0,
    valid := false }

/-- `BaseChunk.parse_int`: note the Python body slices
`byte_seq[start_pos:length]`, using `length` as an absolute end index. -/
def BaseChunk.parse_int (byte_seq : List Nat) (start_pos : Int := 0)
    (length : Int := 4) (byte_order : ByteOrder := .little)
    (signed : Bool := false) : Int :=
  let bs := pySlice byte_seq start_pos length
  let u : Nat :=
    match byte_order with
    | .little => leVal bs
    | .big => beVal bs
  if signed && decide (2 ^ (8 * bs.length) ≤ 2 * u) then
    (u : Int) - 2 ^ (8 * bs.length)
  else
    (u : Int)

/-- `bytes.find(b"\0", start, end)`: index of the first zero byte in
`[start, end)` after Python slice-index normalization, `none` for Python's
`-1` result. -/
def pyFindZero (byte_seq : List Nat) (start stop : Int) : Option Nat :=
  let s := pyIdx byte_seq.length start
  let e := pyIdx byte_seq.length stop
  (((byte_seq.take e).drop s).findIdx? (· = 0)).map (· + s)

/-- `BaseChunk.parse_str`: truncate at the first null byte, decode as UTF-8,
return `""` when the range is empty or decoding raises. -/
def BaseChunk.parse_str (byte_seq : List Nat) (start_pos : Int := 0)
    (end_pos : Int := -1) : List Nat :=
  let end_pos : Int := if end_pos = -1 then (byte_seq.length : Int) else end_pos
  let end_flag_idx : Int :=
    match pyFindZero byte_seq start_pos end_pos with
    | some i => (i : Int)
    | none => end_pos
  if start_pos ≥ end_flag_idx then []
  else
    match utf8Decode (pySlice byte_seq start_pos end_flag_idx) with
    | .ok s => s
    | .error _ => []

/-- `BaseChunk.get_chunk_name`: `""` when fewer than 4 bytes remain, else the
UTF-8 decode of the 4 name bytes (which raises on invalid UTF-8). -/
def BaseChunk.get_chunk_name (byte_seq : List Nat) (chunk_start_pos : Int := 0) :
    Except Unit (List Nat) :=
  if chunk_start_pos + 4 > (byte_seq.length : Int) then .ok []
  else utf8Decode (pySlice byte_seq chunk_start_pos (chunk_start_pos + 4))

/-- `BaseChunk.get_chunk_size`: `-1` when fewer than 8 bytes remain, else the
little-endian u32 at bytes 4..8 of the chunk. -/
def BaseChunk.get_chunk_size (byte_seq : List Nat) (chunk_start_pos : Int := 0) :
    Int :=
  if chunk_start_pos + 8 > (byte_seq.length : Int) then -1
  else BaseChunk.parse_int byte_seq (chunk_start_pos + 4) (chunk_start_pos + 8)

/-- `BaseChunk.get_chunk_type`: the `if/elif` chain over the decoded name;
falling off the chain is Python `None`, modelled as `none`. -/
def BaseChunk.get_chunk_type (byte_seq : List Nat) (chunk_start_pos : Int := 0) :
    Except Unit (Option ChunkType) :=
  if chunk_start_pos + 4 > (byte_seq.length : Int) then
    .ok (some ChunkType.UNKNOWN)
  else
    (BaseChunk.get_chunk_name byte_seq chunk_start_pos).map fun chunk_name =>
      if chunk_name = strRIFF then some ChunkType.RIFF
      else if chunk_name = strFmt then
        let chunk_size := BaseChunk.get_chunk_size byte_seq chunk_start_pos
        if chunk_size = 16 then some ChunkType.STANDARD_FMT
        else if chunk_size = 18 then some ChunkType.NON_STANDARD_FMT
        else if chunk_size = 40 then some ChunkType.EXTENSIBLE_FMT
        else some ChunkType.UNKNOWN
      else if chunk_name = strData then some ChunkType.DATA
      else if chunk_name = strBext then some ChunkType.BEXT
      else none

/-- `BaseChunk.get_bytes`: the span `[start_pos, start_pos+length)` when it
lies within the buffer, else `b""`; on failure `self.valid` becomes
`(not valid_check) and self.valid`. The flag is threaded explicitly as the
last component. -/
def BaseChunk.get_bytes (valid : Bool) (byte_data : List Nat) (start_pos : Int)
    (length : Int) (valid_check : Bool := true) : List Nat × Int × Bool :=
  if start_pos + length > (byte_data.length : Int) then
    ([], start_pos + length, !valid_check && valid)
  else
    (pySlice byte_data start_pos (start_pos + length), start_pos + length, valid)

/-- `BaseChunk.parse`: populate `chunk_name`, `chunk_type`, `chunk_size`
(either of the first two may raise through the UTF-8 decode). -/
def BaseChunk.parse (self : BaseChunk) (byte_seq : List Nat)
    (chunk_start_pos : Int := 0) : Except Unit BaseChunk := do
  let chunk_name ← BaseChunk.get_chunk_name byte_seq chunk_start_pos
  let chunk_type ← BaseChunk.get_chunk_type byte_seq chunk_start_pos
  .ok { self with
          chunk_name := chunk_name,
          chunk_type := chunk_type,
          chunk_size := BaseChunk.get_chunk_size byte_seq chunk_start_pos }

/-- Fields of `RiffChunk`. -/
structure RiffChunk extends BaseChunk where
  wave_symbol : List Nat
deriving DecidableEq, Repr

/-- `RiffChunk.__init__`. -/
def RiffChunk.new : RiffChunk :=
  { toBaseChunk := BaseChunk.new, wave_symbol := [] }

/-- `RiffChunk.parse`: header decode, then name/type/size checks, then the
`"WAVE"` form-type check on bytes 8..12. -/
def RiffChunk.parse (self : RiffChunk) (byte_seq : List Nat)
    (chunk_start_pos : Int := 0) : Except Unit RiffChunk :=
  (BaseChunk.parse self.toBaseChunk byte_seq chunk_start_pos).map fun base =>
    let valid := base.valid
    let valid := if base.chunk_name ≠ strRIFF then false else valid
    let valid := if base.chunk_type ≠ some ChunkType.RIFF then false else valid
    let valid := if base.chunk_size ≠ (4 : Int) then false else valid
    let (wave_symbol_bytes, _, valid) :=
      BaseChunk.get_bytes valid byte_seq (chunk_start_pos + 8) 4
    let wave_symbol := BaseChunk.parse_str wave_symbol_bytes
    let valid := if wave_symbol ≠ strWAVE then false else valid
    { toBaseChunk := { base with valid := valid }, wave_symbol := wave_symbol }

/-- `BaseFormatChunk.FormatTag` enumeration. -/
inductive FormatTag where
  | UNKNOWN
  | PCM
  | IEEE_FLOAT
  | ALAW
  | MULAW
  | EXTENSIBLE
deriving DecidableEq, Repr

/-- Fields of `BaseFormatChunk`; the `_`-prefixed fields hold the raw byte
spans, decoded lazily by the accessors below. -/
structure BaseFormatChunk extends BaseChunk where
  format_tag : FormatTag
  _channels : List Nat
  _sample_rate : List Nat
  _byte_rate : List Nat
  _block_align : List Nat
  _bits_per_sample : List Nat
deriving DecidableEq, Repr

/-- `BaseFormatChunk.__init__`. -/
def BaseFormatChunk.new : BaseFormatChunk :=
  { toBaseChunk := BaseChunk.new, format_tag := FormatTag.UNKNOWN,
    _channels := [], _sample_rate := [], _byte_rate := [], _block_align := [],
    _bits_per_sample := [] }

/-- `BaseFormatChunk._get_format_tag`. -/
def BaseFormatChunk.getFormatTag (byte_data : List Nat) : FormatTag :=
  let format_tag_int := BaseChunk.parse_int byte_data 0 2
  if format_tag_int = 1 then FormatTag.PCM
  else if format_tag_int = 3 then FormatTag.IEEE_FLOAT
  else if format_tag_int = 6 then FormatTag.ALAW
  else if format_tag_int = 7 then FormatTag.MULAW
  else if format_tag_int = 0xFFFE then FormatTag.EXTENSIBLE
  else FormatTag.UNKNOWN

/-- `BaseFormatChunk.parse`: header decode, `"fmt "` name check, then the six
base format fields read sequentially from byte 8 of the chunk. -/
def BaseFormatChunk.parse (self : BaseFormatChunk) (byte_seq : List Nat)
    (chunk_start_pos : Int := 0) : Except Unit BaseFormatChunk :=
  (BaseChunk.parse self.toBaseChunk byte_seq chunk_start_pos).map fun base =>
    let valid := if base.chunk_name ≠ strFmt then false else base.valid
    let start_pos := chunk_start_pos + 8
    let (format_tag_bytes, start_pos, valid) :=
      BaseChunk.get_bytes valid byte_seq start_pos 2
    let format_tag := BaseFormatChunk.getFormatTag format_tag_bytes
    let (channels, start_pos, valid) :=
      BaseChunk.get_bytes valid byte_seq start_pos 2
    let (sample_rate, start_pos, valid) :=
      BaseChunk.get_bytes valid byte_seq start_pos 4
    let (byte_rate, start_pos, valid) :=
      BaseChunk.get_bytes valid byte_seq start_pos 4
    let (block_align, start_pos, valid) :=
      BaseChunk.get_bytes valid byte_seq start_pos 2
    let (bits_per_sample, _, valid) :=
      BaseChunk.get_bytes valid byte_seq start_pos 2
    { toBaseChunk := { base with valid := valid }, format_tag := format_tag,
      _channels := channels, _sample_rate := sample_rate,
      _byte_rate := byte_rate, _block_align := block_align,
      _bits_per_sample := bits_per_sample }

/-- `BaseFormatChunk.channels` property. -/
def BaseFormatChunk.channels (self : BaseFormatChunk) : Int :=
  BaseChunk.parse_int self._channels 0 2

/-- `BaseFormatChunk.sample_rate` property. -/
def BaseFormatChunk.sample_rate (self : BaseFormatChunk) : Int :=
  BaseChunk.parse_int self._sample_rate 0 4

/-- `BaseFormatChunk.byte_rate` property. -/
def BaseFormatChunk.byte_rate (self : BaseFormatChunk) : Int :=
  BaseChunk.parse_int self._byte_rate 0 4

/-- `BaseFormatChunk.block_align` property. -/
def BaseFormatChunk.block_align (self : BaseFormatChunk) : Int :=
  BaseChunk.parse_int self._block_align 0 2

/-- `BaseFormatChunk.bits_per_sample` property. -/
def BaseFormatChunk.bits_per_sample (self : BaseFormatChunk) : Int :=
  BaseChunk.parse_int self._bits_per_sample 0 2

/-- Fields of `StandardPCMFormatChunk` (none beyond the base). -/
structure StandardPCMFormatChunk extends BaseFormatChunk
deriving DecidableEq, Repr

/-- `StandardPCMFormatChunk.__init__`. -/
def StandardPCMFormatChunk.new : StandardPCMFormatChunk :=
  { toBaseFormatChunk := BaseFormatChunk.new }

/-- `StandardPCMFormatChunk.parse`: base format decode plus the
`STANDARD_FMT` type check and the `chunk_size == 16` check. -/
def StandardPCMFormatChunk.parse (self : StandardPCMFormatChunk)
    (byte_seq : List Nat) (chunk_start_pos : Int := 0) :
    Except Unit StandardPCMFormatChunk :=
  (BaseFormatChunk.parse self.toBaseFormatChunk byte_seq chunk_start_pos).map
    fun fc =>
      let valid :=
        if fc.chunk_type ≠ some ChunkType.STANDARD_FMT then false else fc.valid
      let valid := if fc.chunk_size ≠ (16 : Int) then false else valid
      { toBaseFormatChunk :=
          { fc with toBaseChunk := { fc.toBaseChunk with valid := valid } } }

/-- Fields of `NonPCMFormatChunk`. -/
structure NonPCMFormatChunk extends BaseFormatChunk where
  _extension_size : List Nat
deriving DecidableEq, Repr

/-- `NonPCMFormatChunk.__init__`. -/
def NonPCMFormatChunk.new : NonPCMFormatChunk :=
  { toBaseFormatChunk := BaseFormatChunk.new, _extension_size := [] }

/-- `NonPCMFormatChunk.parse`: base format decode plus the
`NON_STANDARD_FMT` type check, the `chunk_size == 18` check and the
required 2-byte extension-size read at byte 24. -/
def NonPCMFormatChunk.parse (self : NonPCMFormatChunk) (byte_seq : List Nat)
    (chunk_start_pos : Int := 0) : Except Unit NonPCMFormatChunk :=
  (BaseFormatChunk.parse self.toBaseFormatChunk byte_seq chunk_start_pos).map
    fun fc =>
      let valid :=
        if fc.chunk_type ≠ some ChunkType.NON_STANDARD_FMT then false
        else fc.valid
      let valid := if fc.chunk_size ≠ (18 : Int) then false else valid
      let (extension_size, _, valid) :=
        BaseChunk.get_bytes valid byte_seq (chunk_start_pos + 24) 2
      { toBaseFormatChunk :=
          { fc with toBaseChunk := { fc.toBaseChunk with valid := valid } },
        _extension_size := extension_size }

/-- `NonPCMFormatChunk.extension_size` property. -/
def NonPCMFormatChunk.extension_size (self : NonPCMFormatChunk) : Int :=
  BaseChunk.parse_int self._extension_size 0 2

/-- Fields of `ExtensibleFormatChunk`. -/
structure ExtensibleFormatChunk extends BaseFormatChunk where
  _extension_size : List Nat
  _valid_bits_per_sample : List Nat
  _channel_mask : List Nat
  sub_format : List Nat
deriving DecidableEq, Repr

/-- `ExtensibleFormatChunk.__init__`. -/
def ExtensibleFormatChunk.new : ExtensibleFormatChunk :=
  { toBaseFormatChunk := BaseFormatChunk.new, _extension_size := [],
    _valid_bits_per_sample := [], _channel_mask := [], sub_format := [] }

/-- `ExtensibleFormatChunk.parse`: base format decode plus the
`EXTENSIBLE_FMT` type check, the `chunk_size == 40` check, and the four
extension fields read sequentially from byte 24. -/
def ExtensibleFormatChunk.parse (self : ExtensibleFormatChunk)
    (byte_seq : List Nat) (chunk_start_pos : Int := 0) :
    Except Unit ExtensibleFormatChunk :=
  (BaseFormatChunk.parse self.toBaseFormatChunk byte_seq chunk_start_pos).map
    fun fc =>
      let valid :=
        if fc.chunk_type ≠ some ChunkType.EXTENSIBLE_FMT then false
        else fc.valid
      let valid := if fc.chunk_size ≠ (40 : Int) then false else valid
      let start_pos := chunk_start_pos + 24
      let (extension_size, start_pos, valid) :=
        BaseChunk.get_bytes valid byte_seq start_pos 2
      let (valid_bits_per_sample, start_pos, valid) :=
        BaseChunk.get_bytes valid byte_seq start_pos 2
      let (channel_mask, start_pos, valid) :=
        BaseChunk.get_bytes valid byte_seq start_pos 4
      let (sub_format, _, valid) :=
        BaseChunk.get_bytes valid byte_seq start_pos 16
      { toBaseFormatChunk :=
          { fc with toBaseChunk := { fc.toBaseChunk with valid := valid } },
        _extension_size := extension_size,
        _valid_bits_per_sample := valid_bits_per_sample,
        _channel_mask := channel_mask, sub_format := sub_format }

/-- `ExtensibleFormatChunk.extension_size` property. -/
def ExtensibleFormatChunk.extension_size (self : ExtensibleFormatChunk) : Int :=
  BaseChunk.parse_int self._extension_size 0 2

/-- `ExtensibleFormatChunk.valid_bits_per_sample` property. -/
def ExtensibleFormatChunk.valid_bits_per_sample (self : ExtensibleFormatChunk) :
    Int :=
  BaseChunk.parse_int self._valid_bits_per_sample 0 2

/-- `ExtensibleFormatChunk.channel_mask` property. -/
def ExtensibleFormatChunk.channel_mask (self : ExtensibleFormatChunk) : Int :=
  BaseChunk.parse_int self._channel_mask 0 4

/-- Fields of `DataChunk`. -/
structure DataChunk extends BaseChunk where
  data : List Nat
deriving DecidableEq, Repr

/-- `DataChunk.__init__`. -/
def DataChunk.new : DataChunk :=
  { toBaseChunk := BaseChunk.new, data := [] }

/-- `DataChunk.parse`: header decode, `"data"` name and `DATA` type checks,
then the payload read of `chunk_size` bytes from byte 8 (required mode;
`get_bytes` returns `b""` when the span is not fully available). -/
def DataChunk.parse (self : DataChunk) (byte_seq : List Nat)
    (chunk_start_pos : Int := 0) : Except Unit DataChunk :=
  (BaseChunk.parse self.toBaseChunk byte_seq chunk_start_pos).map fun base =>
    let valid := if base.chunk_name ≠ strData then false else base.valid
    let valid := if base.chunk_type ≠ some ChunkType.DATA then false else valid
    let (data, _, valid) :=
      BaseChunk.get_bytes valid byte_seq (chunk_start_pos + 8) base.chunk_size
    { toBaseChunk := { base with valid := valid }, data := data }

/-- Fields of `FactChunk`. -/
structure FactChunk extends BaseChunk where
  _sample_length : List Nat
deriving DecidableEq, Repr

/-- `FactChunk.__init__`. -/
def FactChunk.new : FactChunk :=
  { toBaseChunk := BaseChunk.new, _sample_length := [] }

/-- `FactChunk.parse`: header decode, `"fact"` name check, the check that the
classified type equals `UNKNOWN`, the `chunk_size == 4` check, then the
4-byte sample-length read at byte 8. -/
def FactChunk.parse (self : FactChunk) (byte_seq : List Nat)
    (chunk_start_pos : Int := 0) : Except Unit FactChunk :=
  (BaseChunk.parse self.toBaseChunk byte_seq chunk_start_pos).map fun base =>
    let valid := if base.chunk_name ≠ strFact then false else base.valid
    let valid :=
      if base.chunk_type ≠ some ChunkType.UNKNOWN then false else valid
    let valid := if base.chunk_size ≠ (4 : Int) then false else valid
    let (sample_length, _, valid) :=
      BaseChunk.get_bytes valid byte_seq (chunk_start_pos + 8) 4
    { toBaseChunk := { base with valid := valid },
      _sample_length := sample_length }

/-- `FactChunk.sample_length` property. -/
def FactChunk.sample_length (self : FactChunk) : Int :=
  BaseChunk.parse_int self._sample_length 0 4

/-- Fields of `BextChunk`; `_`-prefixed fields hold raw spans decoded by the
accessors. -/
structure BextChunk extends BaseChunk where
  _description : List Nat
  _originator : List Nat
  _originator_reference : List Nat
  _originator_date : List Nat
  _originator_time : List Nat
  _align : List Nat
  _time_reference_low : List Nat
  _time_reference_high : List Nat
  _version : List Nat
  umid : List Nat
  _loudness_value : List Nat
  _loudness_range : List Nat
  _max_true_peak_level : List Nat
  _max_momentary_loudness : List Nat
  _max_short_term_loudness : List Nat
  reserved : List Nat
deriving DecidableEq, Repr

/-- `BextChunk.__init__`. -/
def BextChunk.new : BextChunk :=
  { toBaseChunk := BaseChunk.new, _description := [], _originator := [],
    _originator_reference := [], _originator_date := [],
    _originator_time := [], _align := [], _time_reference_low := [],
    _time_reference_high := [], _version := [], umid := [],
    _loudness_value := [], _loudness_range := [], _max_true_peak_level := [],
    _max_momentary_loudness := [], _max_short_term_loudness := [],
    reserved := [] }

/-- `BextChunk.parse`: header decode, `"bext"` name and `BEXT` type checks,
then the sixteen fixed-width fields read sequentially from byte 8; the
reads from `version` onward pass `valid_check = false` (optional mode). -/
def BextChunk.parse (self : BextChunk) (byte_seq : List Nat)
    (chunk_start_pos : Int := 0) : Except Unit BextChunk :=
  (BaseChunk.parse self.toBaseChunk byte_seq chunk_start_pos).map fun base =>
    let valid := if base.chunk_name ≠ strBext then false else base.valid
    let valid := if base.chunk_type ≠ some ChunkType.BEXT then false else valid
    let start_pos := chunk_start_pos + 8
    let (description, start_pos, valid) :=
      BaseChunk.get_bytes valid byte_seq start_pos 256
    let (originator, start_pos, valid) :=
      BaseChunk.get_bytes valid byte_seq start_pos 32
    let (originator_reference, start_pos, valid) :=
      BaseChunk.get_bytes valid byte_seq start_pos 32
    let (originator_date, start_pos, valid) :=
      BaseChunk.get_bytes valid byte_seq start_pos 10
    let (originator_time, start_pos, valid) :=
      BaseChunk.get_bytes valid byte_seq start_pos 8
    let (align, start_pos, valid) :=
      BaseChunk.get_bytes valid byte_seq start_pos 2
    let (time_reference_low, start_pos, valid) :=
      BaseChunk.get_bytes valid byte_seq start_pos 4
    let (time_reference_high, start_pos, valid) :=
      BaseChunk.get_bytes valid byte_seq start_pos 4
    let (version, start_pos, valid) :=
      BaseChunk.get_bytes valid byte_seq start_pos 1 false
    let (umid, start_pos, valid) :=
      BaseChunk.get_bytes valid byte_seq start_pos 64 false
    let (loudness_value, start_pos, valid) :=
      BaseChunk.get_bytes valid byte_seq start_pos 2 false
    let (loudness_range, start_pos, valid) :=
      BaseChunk.get_bytes valid byte_seq start_pos 2 false
    let (max_true_peak_level, start_pos, valid) :=
      BaseChunk.get_bytes valid byte_seq start_pos 2 false
    let (max_momentary_loudness, start_pos, valid) :=
      BaseChunk.get_bytes valid byte_seq start_pos 2 false
    let (max_short_term_loudness, start_pos, valid) :=
      BaseChunk.get_bytes valid byte_seq start_pos 2 false
    let (reserved, _, valid) :=
      BaseChunk.get_bytes valid byte_seq start_pos 180 false
    { toBaseChunk := { base with valid := valid },
      _description := description, _originator := originator,
      _originator_reference := originator_reference,
      _originator_date := originator_date,
      _originator_time := originator_time, _align := align,
      _time_reference_low := time_reference_low,
      _time_reference_high := time_reference_high, _version := version,
      umid := umid, _loudness_value := loudness_value,
      _loudness_range := loudness_range,
      _max_true_peak_level := max_true_peak_level,
      _max_momentary_loudness := max_momentary_loudness,
      _max_short_term_loudness := max_short_term_loudness,
      reserved := reserved }

/-- `BextChunk.description` property. -/
def BextChunk.description (self : BextChunk) : List Nat :=
  BaseChunk.parse_str self._description

/-- `BextChunk.originator` property. -/
def BextChunk.originator (self : BextChunk) : List Nat :=
  BaseChunk.parse_str self._originator

/-- `BextChunk.originator_reference` property. -/
def BextChunk.originator_reference (self : BextChunk) : List Nat :=
  BaseChunk.parse_str self._originator_reference

/-- `BextChunk.originator_date` property. -/
def BextChunk.originator_date (self : BextChunk) : List Nat :=
  BaseChunk.parse_str self._originator_date

/-- `BextChunk.originator_time` property. -/
def BextChunk.originator_time (self : BextChunk) : List Nat :=
  BaseChunk.parse_str self._originator_time

/-- `BextChunk.align` property. -/
def BextChunk.align (self : BextChunk) : Int :=
  BaseChunk.parse_int self._align 0 2

/-- `BextChunk.time_reference_low` property. -/
def BextChunk.time_reference_low (self : BextChunk) : Int :=
  BaseChunk.parse_int self._time_reference_low 0 4

/-- `BextChunk.time_reference_high` property. -/
def BextChunk.time_reference_high (self : BextChunk) : Int :=
  BaseChunk.parse_int self._time_reference_high 0 4

/-- `BextChunk.version` property. -/
def BextChunk.version (self : BextChunk) : Int :=
  BaseChunk.parse_int self._version 0 1

/-- `BextChunk.loudness_value` property. -/
def BextChunk.loudness_value (self : BextChunk) : Int :=
  BaseChunk.parse_int self._loudness_value 0 2

/-- `BextChunk.loudness_range` property. -/
def BextChunk.loudness_range (self : BextChunk) : Int :=
  BaseChunk.parse_int self._loudness_range 0 2

/-- `BextChunk.max_true_peak_level` property. -/
def BextChunk.max_true_peak_level (self : BextChunk) : Int :=
  BaseChunk.parse_int self._max_true_peak_level 0 2

/-- `BextChunk.max_momentary_loudness` property. -/
def BextChunk.max_momentary_loudness (self : BextChunk) : Int :=
  BaseChunk.parse_int self._max_momentary_loudness 0 2

/-- `BextChunk.max_short_term_loudness` property. -/
def BextChunk.max_short_term_loudness (self : BextChunk) : Int :=
  BaseChunk.parse_int self._max_short_term_loudness 0 2

/-- The 12-byte buffer `"RIFF" + u32(4) + "WAVE"`. -/
def riffGoodBuf : List Nat := strRIFF ++ [4, 0, 0, 0] ++ strWAVE

/-- The 24-byte buffer `"fmt " + u32(16)` followed by the 16 PCM body bytes
for format_tag 1, channels 2, sample_rate 44100, byte_rate 176400,
block_align 4, bits_per_sample 16. -/
def fmtGoodBuf : List Nat :=
  strFmt ++ [16, 0, 0, 0] ++
    [1, 0, 2, 0, 68, 172, 0, 0, 16, 177, 2, 0, 4, 0, 16, 0]

/-- The 16-byte buffer `"data" + u32(10)` followed by only 8 payload bytes. -/
def dataTruncBuf : List Nat := strData ++ [10, 0, 0, 0] ++ [1, 2, 3, 4, 5, 6, 7, 8]

/-- The 8-byte buffer `"fact" + u32(4)` (header only). -/
def factBuf8 : List Nat := strFact ++ [4, 0, 0, 0]

/-- Four bytes that are not valid UTF-8. -/
def badNameBuf : List Nat := [255, 255, 255, 255]

/-- `"bext" + u32(602)` followed by 348 zero body bytes: every field before
`version` is fully present and the buffer ends exactly where `version`
starts (total length 356). -/
def bextTrunc356 : List Nat := strBext ++ [90, 2, 0, 0] ++ List.replicate 348 0

/-- `"bext" + u32(602)` followed by only 344 zero body bytes: the buffer is
truncated inside the required `time_reference_high` field (length 352). -/
def bextTrunc352 : List Nat := strBext ++ [90, 2, 0, 0] ++ List.replicate 344 0

/-- The 12-byte buffer `"RIFF" + u32(4) + "WAVX"`: the good buffer with its
trailing 4 bytes replaced by something other than `"WAVE"`. -/
def riffBadBuf : List Nat := strRIFF ++ [4, 0, 0, 0] ++ [87, 65, 86, 88]

/-- Mapping a pure function over an `Except` preserves `isOk`. -/
theorem exceptMap_isOk {α β : Type} (f : α → β) (e : Except Unit α) :
    (Except.map f e).isOk = e.isOk := by
  cases e <;> rfl

/-- Python slice-index normalization at a natural index is clamping. -/
theorem pyIdx_natCast (len n : Nat) : pyIdx len (n : Int) = min n len := by
  simp [pyIdx]

/-- Clamped `take` bound: taking `min e len` is taking `e`. -/
theorem take_min_length {α : Type} (b : List α) (e : Nat) :
    b.take (min e b.length) = b.take e := by
  rcases Nat.le_total e b.length with h | h
  · rw [Nat.min_eq_left h]
  · rw [Nat.min_eq_right h, List.take_length, List.take_of_length_le h]

/-- Clamped `drop` bound on a prefix: dropping `min s len` is dropping `s`. -/
theorem drop_min_length {α : Type} (b : List α) (e s : Nat) :
    (b.take e).drop (min s b.length) = (b.take e).drop s := by
  rcases Nat.le_total s b.length with h | h
  · rw [Nat.min_eq_left h]
  · have hx : (b.take e).length ≤ b.length := by
      simp [List.length_take]
    rw [Nat.min_eq_right h, List.drop_eq_nil_of_le hx,
      List.drop_eq_nil_of_le (le_trans hx h)]

/-- Python slicing at natural bounds is `drop`/`take`. -/
theorem pySlice_natCast (b : List Nat) (s e : Nat) :
    pySlice b (s : Int) (e : Int) = (b.take e).drop s := by
  unfold pySlice
  rw [pyIdx_natCast, pyIdx_natCast, take_min_length, drop_min_length]

/-- The classifier raises exactly when the name reader raises. -/
theorem get_chunk_type_isOk (byte_seq : List Nat) (p : Int) :
    (BaseChunk.get_chunk_type byte_seq p).isOk =
      (BaseChunk.get_chunk_name byte_seq p).isOk := by
  by_cases h : p + 4 > (byte_seq.length : Int)
  · unfold BaseChunk.get_chunk_type BaseChunk.get_chunk_name
    rw [if_pos h, if_pos h]
    rfl
  · unfold BaseChunk.get_chunk_type
    rw [if_neg h, exceptMap_isOk]

/-- `BaseChunk.parse` raises exactly when the name reader raises. -/
theorem base_parse_isOk (self : BaseChunk) (byte_seq : List Nat) (p : Int) :
    (BaseChunk.parse self byte_seq p).isOk =
      (BaseChunk.get_chunk_name byte_seq p).isOk := by
  unfold BaseChunk.parse
  cases hn : BaseChunk.get_chunk_name byte_seq p with
  | error e => simp [hn, Except.isOk, Except.toBool, Bind.bind, Except.bind]
  | ok n =>
    have ht := get_chunk_type_isOk byte_seq p
    rw [hn] at ht
    cases hty : BaseChunk.get_chunk_type byte_seq p with
    | error e => rw [hty] at ht; simp [Except.isOk, Except.toBool] at ht
    | ok t => simp [hn, hty, Except.isOk, Except.toBool, Bind.bind, Except.bind]

/-- `RiffChunk.parse` raises exactly when the name reader raises. -/
theorem riff_parse_isOk (self : RiffChunk) (byte_seq : List Nat) (p : Int) :
    (RiffChunk.parse self byte_seq p).isOk =
      (BaseChunk.get_chunk_name byte_seq p).isOk := by
  unfold RiffChunk.parse
  rw [exceptMap_isOk, base_parse_isOk]

/-- `BaseFormatChunk.parse` raises exactly when the name reader raises. -/
theorem fmt_parse_isOk (self : BaseFormatChunk) (byte_seq : List Nat)
    (p : Int) :
    (BaseFormatChunk.parse self byte_seq p).isOk =
      (BaseChunk.get_chunk_name byte_seq p).isOk := by
  unfold BaseFormatChunk.parse
  rw [exceptMap_isOk, base_parse_isOk]

/-- `StandardPCMFormatChunk.parse` raises exactly when the name reader
raises. -/
theorem std_parse_isOk (self : StandardPCMFormatChunk) (byte_seq : List Nat)
    (p : Int) :
    (StandardPCMFormatChunk.parse self byte_seq p).isOk =
      (BaseChunk.get_chunk_name byte_seq p).isOk := by
  unfold StandardPCMFormatChunk.parse
  rw [exceptMap_isOk, fmt_parse_isOk]

/-- `NonPCMFormatChunk.parse` raises exactly when the name reader raises. -/
theorem nonpcm_parse_isOk (self : NonPCMFormatChunk) (byte_seq : List Nat)
    (p : Int) :
    (NonPCMFormatChunk.parse self byte_seq p).isOk =
      (BaseChunk.get_chunk_name byte_seq p).isOk := by
  unfold NonPCMFormatChunk.parse
  rw [exceptMap_isOk, fmt_parse_isOk]

/-- `ExtensibleFormatChunk.parse` raises exactly when the name reader
raises. -/
theorem extfmt_parse_isOk (self : ExtensibleFormatChunk) (byte_seq : List Nat)
    (p : Int) :
    (ExtensibleFormatChunk.parse self byte_seq p).isOk =
      (BaseChunk.get_chunk_name byte_seq p).isOk := by
  unfold ExtensibleFormatChunk.parse
  rw [exceptMap_isOk, fmt_parse_isOk]

/-- `DataChunk.parse` raises exactly when the name reader raises. -/
theorem data_parse_isOk (self : DataChunk) (byte_seq : List Nat) (p : Int) :
    (DataChunk.parse self byte_seq p).isOk =
      (BaseChunk.get_chunk_name byte_seq p).isOk := by
  unfold DataChunk.parse
  rw [exceptMap_isOk, base_parse_isOk]

/-- `FactChunk.parse` raises exactly when the name reader raises. -/
theorem fact_parse_isOk (self : FactChunk) (byte_seq : List Nat) (p : Int) :
    (FactChunk.parse self byte_seq p).isOk =
      (BaseChunk.get_chunk_name byte_seq p).isOk := by
  unfold FactChunk.parse
  rw [exceptMap_isOk, base_parse_isOk]

/-- `BextChunk.parse` raises exactly when the name reader raises. -/
theorem bext_parse_isOk (self : BextChunk) (byte_seq : List Nat) (p : Int) :
    (BextChunk.parse self byte_seq p).isOk =
      (BaseChunk.get_chunk_name byte_seq p).isOk := by
  unfold BextChunk.parse
  rw [exceptMap_isOk, base_parse_isOk]

/-- Claim C1 (code bug, evaluation at the failing input): the validity flag
does NOT start true — `BaseChunk.__init__` sets `valid = False`, nothing ever
sets it back to true, and so the decode of `"RIFF" + u32(4) + "WAVE"`, in
which no structural or required-field check is violated, still ends with
`valid = false`. -/
theorem c1_valid_starts_false :
    BaseChunk.new.valid = false ∧ RiffChunk.new.valid = false ∧
    (RiffChunk.parse RiffChunk.new riffGoodBuf 0).map (fun c => c.valid) =
      .ok false :=
  ⟨rfl, rfl, rfl⟩

/-- Claim C2 (code bug, evaluation at the failing input): decoding
`"RIFF" + u32(4) + "WAVE"` populates every field as the claim says
(`name = "RIFF"`, Container tag, size 4, `wave_symbol = "WAVE"`) but yields
`is_valid = false`, because validity is initialized false and never set true;
the mutated buffer (trailing `"WAVX"`) decodes to the same record except for
`wave_symbol`, also invalid. -/
theorem c2_riff_decode_eval :
    RiffChunk.parse RiffChunk.new riffGoodBuf 0 =
      .ok { chunk_name := strRIFF, chunk_type := some ChunkType.RIFF,
            chunk_size := 4, valid := false, wave_symbol := strWAVE } ∧
    RiffChunk.parse RiffChunk.new riffBadBuf 0 =
      .ok { chunk_name := strRIFF, chunk_type := some ChunkType.RIFF,
            chunk_size := 4, valid := false,
            wave_symbol := [87, 65, 86, 88] } :=
  ⟨rfl, rfl⟩

/-- Claim C3 (counterexample): on the buffer `b"\xff\xff\xff\xff"` the name
reader and hence every decoder's `parse` raise `UnicodeDecodeError`
(modelled as `Except.error ()`) instead of returning a record. -/
theorem c3_cex_parse_raises :
    BaseChunk.get_chunk_name badNameBuf 0 = .error () ∧
    BaseChunk.parse BaseChunk.new badNameBuf 0 = .error () ∧
    RiffChunk.parse RiffChunk.new badNameBuf 0 = .error () ∧
    DataChunk.parse DataChunk.new badNameBuf 0 = .error () :=
  ⟨rfl, rfl, rfl, rfl⟩

/-- Claim C3 (amended): whenever the name reader does not raise — that is,
whenever fewer than 4 bytes remain at the offset or the 4 name bytes are
valid UTF-8 — every decoder's `parse` returns a record normally. -/
theorem c3_parse_total_on_valid_names (byte_seq : List Nat)
    (chunk_start_pos : Int)
    (h : (BaseChunk.get_chunk_name byte_seq chunk_start_pos).isOk = true) :
    (BaseChunk.parse BaseChunk.new byte_seq chunk_start_pos).isOk = true ∧
    (RiffChunk.parse RiffChunk.new byte_seq chunk_start_pos).isOk = true ∧
    (StandardPCMFormatChunk.parse StandardPCMFormatChunk.new byte_seq
      chunk_start_pos).isOk = true ∧
    (NonPCMFormatChunk.parse NonPCMFormatChunk.new byte_seq
      chunk_start_pos).isOk = true ∧
    (ExtensibleFormatChunk.parse ExtensibleFormatChunk.new byte_seq
      chunk_start_pos).isOk = true ∧
    (DataChunk.parse DataChunk.new byte_seq chunk_start_pos).isOk = true ∧
    (FactChunk.parse FactChunk.new byte_seq chunk_start_pos).isOk = true ∧
    (BextChunk.parse BextChunk.new byte_seq chunk_start_pos).isOk = true := by
  refine ⟨?_, ?_, ?_, ?_, ?_, ?_, ?_, ?_⟩
  · rw [base_parse_isOk]; exact h
  · rw [riff_parse_isOk]; exact h
  · rw [std_parse_isOk]; exact h
  · rw [nonpcm_parse_isOk]; exact h
  · rw [extfmt_parse_isOk]; exact h
  · rw [data_parse_isOk]; exact h
  · rw [fact_parse_isOk]; exact h
  · rw [bext_parse_isOk]; exact h

/-- Witness for C3 (amended) at the concrete buffer `"RIFF"+u32(4)+"WAVE"`. -/
theorem c3_parse_total_on_valid_names_witness :
    (RiffChunk.parse RiffChunk.new riffGoodBuf 0).isOk = true ∧
    (DataChunk.parse DataChunk.new riffGoodBuf 0).isOk = true := by
  have h := c3_parse_total_on_valid_names riffGoodBuf 0 (by rfl)
  exact ⟨h.2.1, h.2.2.2.2.2.1⟩

/-- Claim C4 (counterexample): on the 8-byte buffer `"fact" + u32(4)` the
classifier returns Python `None` (no `else` branch), not
`ChunkType.UNKNOWN`. -/
theorem c4_cex_fact_classifies_none :
    BaseChunk.get_chunk_type factBuf8 0 = .ok none ∧
    BaseChunk.get_chunk_type factBuf8 0 ≠ .ok (some ChunkType.UNKNOWN) := by
  refine ⟨rfl, ?_⟩
  intro h
  rw [show BaseChunk.get_chunk_type factBuf8 0 = .ok none from rfl] at h
  injection h with h2
  exact absurd h2 (by decide)

/-- Claim C4 (amended): for every buffer with at least 8 bytes available at
the offset whose decoded 4-byte name is none of `"RIFF"`, `"fmt "`, `"data"`,
`"bext"`, the classifier falls off its `elif` chain and returns Python
`None` (`none`), a value distinct from `ChunkType.UNKNOWN`. -/
theorem c4_unrecognized_name_classifies_none (byte_seq : List Nat)
    (chunk_start_pos : Int)
    (h8 : chunk_start_pos + 8 ≤ (byte_seq.length : Int)) (name : List Nat)
    (hname : BaseChunk.get_chunk_name byte_seq chunk_start_pos = .ok name)
    (hn1 : name ≠ strRIFF) (hn2 : name ≠ strFmt) (hn3 : name ≠ strData)
    (hn4 : name ≠ strBext) :
    BaseChunk.get_chunk_type byte_seq chunk_start_pos = .ok none := by
  unfold BaseChunk.get_chunk_type
  rw [if_neg (by omega), hname]
  simp [Except.map, hn1, hn2, hn3, hn4]

/-- Witness for C4 (amended) at the concrete buffer `"fact" + u32(4)`. -/
theorem c4_unrecognized_name_classifies_none_witness :
    BaseChunk.get_chunk_type factBuf8 0 = .ok none :=
  c4_unrecognized_name_classifies_none factBuf8 0 (by decide) strFact rfl
    (by decide) (by decide) (by decide) (by decide)

/-- Claim C5 (counterexample): in `BextChunk.parse` the `version` field is
read in OPTIONAL mode (`valid_check=False`), not required: on a `bext`
buffer whose every field before `version` is intact and which ends exactly
where `version` starts, a parse whose validity flag is true on entry keeps
it true — truncation inside `version` does not clear validity. -/
theorem c5_cex_version_read_is_optional :
    (BextChunk.parse { BextChunk.new with valid := true } bextTrunc356 0).map
      (fun c => c.valid) = .ok true :=
  rfl

/-- Claim C5 (amended): in `BextChunk.parse` the reads from `version` onward
(`version`, `umid`, the five loudness/peak metrics, the reserved tail) are
optional — truncation there leaves the validity flag exactly as it was —
while the fields before `version` are required: truncation inside
`time_reference_high` forces validity to false even from a true entry
state. -/
theorem c5_bext_optional_from_version :
    (BextChunk.parse { BextChunk.new with valid := true } bextTrunc356 0).map
      (fun c => c.valid) = .ok true ∧
    (BextChunk.parse BextChunk.new bextTrunc356 0).map
      (fun c => c.valid) = .ok false ∧
    (BextChunk.parse { BextChunk.new with valid := true } bextTrunc352 0).map
      (fun c => c.valid) = .ok false :=
  ⟨rfl, rfl, rfl⟩

/-- Claim C6 (counterexample): for `"data" + u32(10)` with only 8 payload
bytes, the decoded record's `data` field is the EMPTY span (`get_bytes`
returns `b""` on a bounds failure), not the 8-byte span actually present. -/
theorem c6_cex_payload_empty_not_partial :
    (DataChunk.parse DataChunk.new dataTruncBuf 0).map (fun c => c.data) =
      .ok [] ∧
    (DataChunk.parse DataChunk.new dataTruncBuf 0).map (fun c => c.data) ≠
      .ok [1, 2, 3, 4, 5, 6, 7, 8] := by
  refine ⟨rfl, ?_⟩
  intro h
  rw [show (DataChunk.parse DataChunk.new dataTruncBuf 0).map
        (fun c => c.data) = .ok [] from rfl] at h
  injection h with h2
  exact absurd h2 (by decide)

/-- Claim C6 (amended): `"data" + u32(10)` with only 8 payload bytes decodes
to a record with `is_valid = false` whose payload is the empty span. -/
theorem c6_data_truncated_record :
    DataChunk.parse DataChunk.new dataTruncBuf 0 =
      .ok { chunk_name := strData, chunk_type := some ChunkType.DATA,
            chunk_size := 10, valid := false, data := [] } :=
  rfl

/-- Claim C7 (code bug, evaluation at the failing input): decoding the
24-byte PCM `fmt ` buffer returns exactly the claimed accessor values
(PCM, 2 channels, 44100 Hz, 176400 B/s, block align 4, 16 bits) but
`is_valid = false`, because validity is initialized false and never set
true. -/
theorem c7_fmt_decode_eval :
    (StandardPCMFormatChunk.parse StandardPCMFormatChunk.new fmtGoodBuf 0).map
      (fun c => (c.valid, c.format_tag, c.channels, c.sample_rate,
        c.byte_rate, c.block_align, c.bits_per_sample)) =
      .ok (false, FormatTag.PCM, 2, 44100, 176400, 4, 16) :=
  rfl

/-- Claim C8 (counterexample): `parse_int` does not decode the `length`
bytes beginning at `start_pos`: at span `[1, 2, 3]`, start 1, length 2 it
returns 2 (the single byte `byte_seq[1:2]`), not the little-endian value 770
of the two bytes `[2, 3]` beginning at position 1. -/
theorem c8_cex_length_is_end_index :
    BaseChunk.parse_int [1, 2, 3] 1 2 ByteOrder.little false = 2 ∧
    BaseChunk.parse_int [1, 2, 3] 1 2 ByteOrder.little false ≠
      (leVal ((([1, 2, 3] : List Nat).drop 1).take 2) : Int) := by
  exact ⟨by rfl, by decide⟩

/-- Claim C8 (amended): for natural `start_pos` and `length`, `parse_int`
decodes exactly the bytes of `byte_seq[start_pos:length]` — `length` acts as
an absolute end index, so the result is the little-endian (resp. big-endian)
value of the span between `start_pos` and `length`; an empty slice (hence a
zero-length span) decodes as 0. -/
theorem c8_parse_int_slice_semantics (byte_seq : List Nat)
    (start_pos length : Nat) :
    BaseChunk.parse_int byte_seq (start_pos : Int) (length : Int)
        ByteOrder.little false =
      (leVal ((byte_seq.take length).drop start_pos) : Int) ∧
    BaseChunk.parse_int byte_seq (start_pos : Int) (length : Int)
        ByteOrder.big false =
      (beVal ((byte_seq.take length).drop start_pos) : Int) := by
  unfold BaseChunk.parse_int
  rw [pySlice_natCast]
  simp

/-- Claim C9: with fewer than 4 bytes remaining at the offset, the
classifier returns `ChunkType.UNKNOWN` and the name reader returns `""`. -/
theorem c9_classifier_short_buffer (byte_seq : List Nat)
    (chunk_start_pos : Int)
    (h : chunk_start_pos + 4 > (byte_seq.length : Int)) :
    BaseChunk.get_chunk_type byte_seq chunk_start_pos =
      .ok (some ChunkType.UNKNOWN) ∧
    BaseChunk.get_chunk_name byte_seq chunk_start_pos = .ok [] := by
  constructor
  · unfold BaseChunk.get_chunk_type
    rw [if_pos h]
  · unfold BaseChunk.get_chunk_name
    rw [if_pos h]

/-- Witness for C9 at the empty buffer. -/
theorem c9_classifier_short_buffer_witness :
    BaseChunk.get_chunk_type [] 0 = .ok (some ChunkType.UNKNOWN) ∧
    BaseChunk.get_chunk_name [] 0 = .ok [] :=
  c9_classifier_short_buffer [] 0 (by decide)

/-- Claim C10: with at least 4 but fewer than 8 bytes remaining, the size
reader returns the sentinel `-1`; the classifier still returns the RIFF,
DATA and BEXT tags for the names `"RIFF"`, `"data"`, `"bext"`, while
`"fmt "` classifies as `UNKNOWN` because the sentinel `-1` matches none of
16, 18, 40. -/
theorem c10_classifier_name_only (byte_seq : List Nat) (chunk_start_pos : Int)
    (h4 : chunk_start_pos + 4 ≤ (byte_seq.length : Int))
    (h8 : chunk_start_pos + 8 > (byte_seq.length : Int)) :
    BaseChunk.get_chunk_size byte_seq chunk_start_pos = -1 ∧
    (BaseChunk.get_chunk_name byte_seq chunk_start_pos = .ok strRIFF →
      BaseChunk.get_chunk_type byte_seq chunk_start_pos =
        .ok (some ChunkType.RIFF)) ∧
    (BaseChunk.get_chunk_name byte_seq chunk_start_pos = .ok strData →
      BaseChunk.get_chunk_type byte_seq chunk_start_pos =
        .ok (some ChunkType.DATA)) ∧
    (BaseChunk.get_chunk_name byte_seq chunk_start_pos = .ok strBext →
      BaseChunk.get_chunk_type byte_seq chunk_start_pos =
        .ok (some ChunkType.BEXT)) ∧
    (BaseChunk.get_chunk_name byte_seq chunk_start_pos = .ok strFmt →
      BaseChunk.get_chunk_type byte_seq chunk_start_pos =
        .ok (some ChunkType.UNKNOWN)) := by
  have hsz : BaseChunk.get_chunk_size byte_seq chunk_start_pos = -1 := by
    unfold BaseChunk.get_chunk_size
    rw [if_pos h8]
  refine ⟨hsz, ?_, ?_, ?_, ?_⟩ <;> intro hname <;>
    · unfold BaseChunk.get_chunk_type
      rw [if_neg (by omega), hname, hsz]
      simp [Except.map, strRIFF, strFmt, strData, strBext]

/-- Witness for C10 at the 4-byte buffer `"RIFF"`. -/
theorem c10_classifier_name_only_witness :
    BaseChunk.get_chunk_size strRIFF 0 = -1 ∧
    BaseChunk.get_chunk_type strRIFF 0 = .ok (some ChunkType.RIFF) := by
  have h := c10_classifier_name_only strRIFF 0 (by decide) (by decide)
  exact ⟨h.1, h.2.1 rfl⟩
